import Mathlib

/-!
Verification of the BRICS dashboard data pipeline (src/Dashboard.py).

The dashboard loads two database tables (GDP and population), renames their
columns to a canonical schema, coerces the value columns to numeric and drops
incomplete rows, filters both tables by a country selection and an inclusive
year range, inner-joins them on (country, year), derives a per-capita column
under a global guard, and slices out the most recent year for a summary table.

The embedding below follows the script line by line.  Tabular data is modelled
as lists of records; pandas "NaN / missing" cells are modelled with `Option`;
numeric cells are rationals.  The typed embedding fixes the column sets of each
frame, so the script's `'col' in df.columns` and `is_numeric_dtype` checks,
which are true on the schemas produced by the database load, hold by
construction and are noted in doc comments where they occur in the source.
-/

/-- A raw database cell for a value column: a numeric value, a non-numeric
text (one that does not parse as a number), or SQL NULL.  Text that parses as
a number is modelled directly as `num`, since `pd.to_numeric` keeps it. -/
inductive RawVal where
  | num (q : Rat)
  | text (s : String)
  | null
deriving DecidableEq, Repr

/-- `pd.to_numeric(..., errors='coerce')` (Dashboard.py lines 62-63): numeric
values pass through, everything else becomes NaN, modelled as `none`. -/
def toNumericCoerce : RawVal → Option Rat
  | .num q => some q
  | .text _ => none
  | .null => none

/-- A raw row of the `brics_pib` table (`SELECT *`, line 24): columns
pais, ano, unidade, pib_dolar.  pais and ano may be NULL; ano is a numeric
(integer) column as delivered by the database. -/
structure RawGdpRow where
  pais : Option String
  ano : Option Int
  unidade : Option String
  pib_dolar : RawVal
deriving DecidableEq, Repr

/-- A raw row of the `brics_populacao` table: columns pais, ano, unidade,
populacao. -/
structure RawPopRow where
  pais : Option String
  ano : Option Int
  unidade : Option String
  populacao : RawVal
deriving DecidableEq, Repr

/-- A cleaned GDP row after renaming (lines 45-50), numeric coercion
(line 62) and `dropna(subset=['gdp_usd','country','year'])` (line 66):
country, year and gdp_usd are guaranteed present; unit may still be NULL
because it is not in the dropna subset. -/
structure GdpRow where
  country : String
  year : Int
  unit : Option String
  gdp_usd : Rat
deriving DecidableEq, Repr

/-- A cleaned population row after renaming (lines 53-58), coercion (line 63)
and `dropna(subset=['population','country','year'])` (line 67). -/
structure PopRow where
  country : String
  year : Int
  unit : Option String
  population : Rat
deriving DecidableEq, Repr

/-- Per-row normalization for GDP (lines 45-50, 62, 66): rename columns,
coerce pib_dolar, and drop the row unless country, year and gdp_usd are all
present.  Values of retained rows are unchanged. -/
def normGdpRow (r : RawGdpRow) : Option GdpRow :=
  match r.pais, r.ano, toNumericCoerce r.pib_dolar with
  | some c, some y, some g => some ⟨c, y, r.unidade, g⟩
  | _, _, _ => none

/-- Cleaning of the GDP table: rename + coerce + dropna (lines 45-66). -/
def normalizeGdp (raw : List RawGdpRow) : List GdpRow :=
  raw.filterMap normGdpRow

/-- Per-row normalization for population (lines 53-58, 63, 67). -/
def normPopRow (r : RawPopRow) : Option PopRow :=
  match r.pais, r.ano, toNumericCoerce r.populacao with
  | some c, some y, some p => some ⟨c, y, r.unidade, p⟩
  | _, _, _ => none

/-- Cleaning of the population table (lines 53-67). -/
def normalizePop (raw : List RawPopRow) : List PopRow :=
  raw.filterMap normPopRow

/-- `sorted(df_gdp['country'].unique())` (line 80): the selectable country
list, derived from the cleaned GDP table only. -/
def allCountries (gdp : List GdpRow) : List String :=
  ((gdp.map (·.country)).dedup).mergeSort (fun a b => decide (a ≤ b))

/-- Lines 95-97: if no country was chosen the script substitutes the dummy
value `'_NO_COUNTRY_'` so that the later `.isin` filter matches nothing
instead of erroring. -/
def effectiveSelected (sel : List String) : List String :=
  if sel.isEmpty then ["_NO_COUNTRY_"] else sel

/-- `int()` applied to the min/max of the (numeric) year series (lines
103-104).  On an empty series the min/max is NaN and `int(NaN)` raises
`ValueError`; the raised exception is modelled with `Except.error`. -/
def intOfSeriesBound : Option Int → Except String Int
  | some n => Except.ok n
  | none => Except.error "ValueError: cannot convert float NaN to integer"

/-- The year-range slider bounds (lines 102-110): `int(df_gdp['year'].min())`
and `int(df_gdp['year'].max())`.  The year column exists and is numeric in
the typed embedding, so the guard on line 102 is taken. -/
def computeYearRange (gdp : List GdpRow) : Except String (Int × Int) := do
  let lo ← intOfSeriesBound (gdp.map (·.year)).min?
  let hi ← intOfSeriesBound (gdp.map (·.year)).max?
  pure (lo, hi)

/-- Lines 117-121: `df_gdp[(isin selected) & (year >= lo) & (year <= hi)]`.
Both year-range endpoints are inclusive. -/
def filterGdp (df : List GdpRow) (sel : List String) (lo hi : Int) : List GdpRow :=
  df.filter fun r => sel.contains r.country && decide (lo ≤ r.year) && decide (r.year ≤ hi)

/-- Lines 126-130: the same filter applied to the population table. -/
def filterPop (df : List PopRow) (sel : List String) (lo hi : Int) : List PopRow :=
  df.filter fun r => sel.contains r.country && decide (lo ≤ r.year) && decide (r.year ≤ hi)

/-- A row of `pd.merge(..., on=['country','year'], how='inner',
suffixes=('_gdp','_pop'))` (line 209).  `unit` is the only column name shared
by the two inputs besides the join keys, so it is the only suffixed one. -/
structure MergedRow where
  country : String
  year : Int
  unit_gdp : Option String
  gdp_usd : Rat
  unit_pop : Option String
  population : Rat
deriving DecidableEq, Repr

/-- The merged row built from one GDP row and one matching population row. -/
def mkMergedRow (g : GdpRow) (p : PopRow) : MergedRow :=
  ⟨g.country, g.year, g.unit, g.gdp_usd, p.unit, p.population⟩

/-- The inner join of line 209: each GDP row is paired with every population
row carrying the same (country, year) key; unmatched rows on either side
contribute nothing. -/
def mergeInner (G : List GdpRow) (P : List PopRow) : List MergedRow :=
  G.flatMap fun g =>
    (P.filter fun p => p.country == g.country && p.year == g.year).map (mkMergedRow g)

/-- A row of `df_combined` after the per-capita step: the merged columns plus
an optional gdp_per_capita column (`none` everywhere models the column being
absent from the frame). -/
structure CombinedRow where
  country : String
  year : Int
  unit_gdp : Option String
  gdp_usd : Rat
  unit_pop : Option String
  population : Rat
  gdp_per_capita : Option Rat
deriving DecidableEq, Repr

/-- Lines 211-229: the per-capita column is added only when the joined frame
is non-empty and `(df_combined['population'] != 0).all()` — a single global
guard over the whole frame, not a per-row test.  The column-existence and
`is_numeric_dtype` parts of the guard on lines 213-214 hold by construction
in the typed embedding (both value columns are rationals).  When the guard
fails the column is absent for every row. -/
def addPerCapita (m : List MergedRow) : List CombinedRow :=
  if !m.isEmpty && m.all (fun r => r.population != 0) then
    m.map fun r =>
      ⟨r.country, r.year, r.unit_gdp, r.gdp_usd, r.unit_pop, r.population,
        some (r.gdp_usd / r.population)⟩
  else
    m.map fun r =>
      ⟨r.country, r.year, r.unit_gdp, r.gdp_usd, r.unit_pop, r.population, none⟩

/-- The combined step of lines 208-229: inner join, then the guarded
per-capita derivation. -/
def combine (G : List GdpRow) (P : List PopRow) : List CombinedRow :=
  addPerCapita (mergeInner G P)

/-- A summary-table row (lines 245-247): the projection of a combined row to
`['country','year','gdp_usd','population','gdp_per_capita']`, keeping only
columns that exist (the two unit columns are dropped; gdp_per_capita is kept
in its optional state). -/
structure SummaryRow where
  country : String
  year : Int
  gdp_usd : Rat
  population : Rat
  gdp_per_capita : Option Rat
deriving DecidableEq, Repr

/-- Projection of a combined row onto the summary columns. -/
def projectSummary (r : CombinedRow) : SummaryRow :=
  ⟨r.country, r.year, r.gdp_usd, r.population, r.gdp_per_capita⟩

/-- Lines 240-247: `latest_year = df_combined['year'].max()` and the slice
`df_combined[df_combined['year'] == latest_year]` projected to the existing
display columns.  On an empty combined frame the script skips the slice
(line 240 guard), modelled by `none`. -/
def latestSlice (m : List CombinedRow) : Option (Int × List SummaryRow) :=
  match (m.map (·.year)).max? with
  | none => none
  | some y => some (y, (m.filter fun r => r.year == y).map projectSummary)

/-- Python's `round` to the nearest integer, used to model the rounding done
by `f"{x:,.2f}"`.  (CPython rounds ties of binary floats to even; on the
rational model ties are rounded up — ties are irrelevant to the claims, which
concern which frames formatting touches.) -/
def pyRound (q : Rat) : Int := (q + 1/2).floor

/-- Insert a `,` after every third character of a reversed digit list. -/
def group3 : List Char → List Char
  | a :: b :: c :: d :: rest => a :: b :: c :: ',' :: group3 (d :: rest)
  | l => l

/-- Thousands grouping of a (non-negative) digit string, as `{:,}` does. -/
def groupThousands (s : String) : String :=
  ⟨(group3 s.toList.reverse).reverse⟩

/-- Left-pad a digit string with zeros to a given width. -/
def padZeros (s : String) (w : Nat) : String :=
  ⟨List.replicate (w - s.length) '0'⟩ ++ s

/-- Python's `f"{x:,.decs f}"`: fixed-point with `decs` decimals, `,` as the
thousands separator and `.` as the decimal point. -/
def pyFormatComma (q : Rat) (decs : Nat) : String :=
  let n : Nat := (pyRound (|q| * (10 : Rat) ^ decs)).toNat
  let p : Nat := 10 ^ decs
  let ipStr := groupThousands (toString (n / p))
  let s := if decs == 0 then ipStr else ipStr ++ "." ++ padZeros (toString (n % p)) decs
  if q < 0 then "-" ++ s else s

/-- The separator swap of lines 145, 155, 256, 260, 264:
`.replace(",", "X").replace(".", ",").replace("X", ".")`, turning the
US-style string into Brazilian formatting. -/
def brSwap (s : String) : String :=
  ((s.replace "," "X").replace "." ",").replace "X" "."

/-- The cell formatter `f"{x:,.2f}"` + separator swap used for gdp_usd and
gdp_per_capita (lines 144-146, 255-257, 263-265).  The `pd.notnull` test in
the source guards NaN cells; value cells are non-null by construction here. -/
def fmtCell2 (q : Rat) : String := brSwap (pyFormatComma q 2)

/-- The cell formatter `f"{x:,.0f}"` + separator swap used for population
(lines 154-156, 259-261). -/
def fmtCell0 (q : Rat) : String := brSwap (pyFormatComma q 0)

/-- A displayed GDP table row: gdp_usd replaced by its formatted string. -/
structure FmtGdpRow where
  country : String
  year : Int
  unit : Option String
  gdp_usd : String
deriving DecidableEq, Repr

/-- Lines 140-146: `formatted_gdp_df = df_gdp_filtered.copy()` followed by
the formatting `apply` on the copy's gdp_usd column. -/
def formatGdpTable (df : List GdpRow) : List FmtGdpRow :=
  df.map fun r => ⟨r.country, r.year, r.unit, fmtCell2 r.gdp_usd⟩

/-- A displayed population table row. -/
structure FmtPopRow where
  country : String
  year : Int
  unit : Option String
  population : String
deriving DecidableEq, Repr

/-- Lines 151-156: copy of the filtered population frame with population
formatted. -/
def formatPopTable (df : List PopRow) : List FmtPopRow :=
  df.map fun r => ⟨r.country, r.year, r.unit, fmtCell0 r.population⟩

/-- A displayed summary-table row (lines 251-265). -/
structure FmtSummaryRow where
  country : String
  year : Int
  gdp_usd : String
  population : String
  gdp_per_capita : Option String
deriving DecidableEq, Repr

/-- Lines 251-265: copy of the latest-year slice with its numeric columns
formatted; gdp_per_capita is formatted only when the column exists. -/
def formatLatestTable (rows : List SummaryRow) : List FmtSummaryRow :=
  rows.map fun r =>
    ⟨r.country, r.year, fmtCell2 r.gdp_usd, fmtCell0 r.population,
      r.gdp_per_capita.map fmtCell2⟩

/-- The display section of the script (lines 140-157 and 251-267): it builds
formatted copies of the filtered GDP frame, the filtered population frame and
the latest-year slice of the combined frame, and returns the pipeline frames
alongside the formatted tables.  The first component is what the charts and
all downstream steps keep reading. -/
def renderTables (gf : List GdpRow) (pf : List PopRow) (comb : List CombinedRow) :
    (List GdpRow × List PopRow × List CombinedRow) ×
      (List FmtGdpRow × List FmtPopRow × List FmtSummaryRow) :=
  let formatted_gdp_df := formatGdpTable gf
  let formatted_pop_df := formatPopTable pf
  let formatted_latest_data :=
    match latestSlice comb with
    | some (_, rows) => formatLatestTable rows
    | none => []
  ((gf, pf, comb), (formatted_gdp_df, formatted_pop_df, formatted_latest_data))

/-- The data produced by one full run of the dashboard body (lines 42-247). -/
structure DashboardView where
  df_gdp_filtered : List GdpRow
  df_population_filtered : List PopRow
  df_combined : List CombinedRow
  latest : Option (Int × List SummaryRow)
deriving DecidableEq, Repr

/-- One run of the pipeline as the script executes it, at the initial slider
position (the slider's default value is the full (min, max) range, line 109).
`sel` is the user's multiselect choice ("all countries" passes the full list).
Line 40: if either loaded table is empty only a warning is shown, modelled as
an empty view.  Otherwise the script cleans both tables, substitutes the
sentinel for an empty selection (lines 95-97), computes the slider bounds
with `int(min)` / `int(max)` (lines 103-104) — which raises when the cleaned
GDP table became empty — filters, joins and slices. -/
def runPipeline (rawGdp : List RawGdpRow) (rawPop : List RawPopRow)
    (sel : List String) : Except String DashboardView :=
  if rawGdp.isEmpty || rawPop.isEmpty then
    Except.ok ⟨[], [], [], none⟩
  else do
    let df_gdp := normalizeGdp rawGdp
    let df_population := normalizePop rawPop
    let selected_countries := effectiveSelected sel
    let (lo, hi) ← computeYearRange df_gdp
    let df_gdp_filtered := filterGdp df_gdp selected_countries lo hi
    let df_population_filtered := filterPop df_population selected_countries lo hi
    let df_combined := combine df_gdp_filtered df_population_filtered
    pure ⟨df_gdp_filtered, df_population_filtered, df_combined,
      latestSlice df_combined⟩

/-! ## Helper lemmas -/

/-- A value returned by `List.max?` is a member and an upper bound. -/
theorem max?_spec (l : List Int) (a : Int) (h : l.max? = some a) :
    a ∈ l ∧ ∀ b ∈ l, b ≤ a := by
  have inst : Std.Antisymm (α := Int) (· ≤ ·) := ⟨le_antisymm⟩
  rw [List.max?_eq_some_iff] at h
  · exact ⟨h.1, h.2⟩
  all_goals simp [le_total]

/-- `List.max?` is defined on every non-empty list. -/
theorem max?_of_ne_nil (l : List Int) (h : l ≠ []) : ∃ a, l.max? = some a := by
  cases l with
  | nil => exact absurd rfl h
  | cons x xs => exact ⟨_, List.max?_cons⟩

/-- Membership in the filtered GDP frame (lines 117-121). -/
theorem mem_filterGdp (df : List GdpRow) (sel : List String) (lo hi : Int)
    (r : GdpRow) :
    r ∈ filterGdp df sel lo hi ↔
      r ∈ df ∧ r.country ∈ sel ∧ lo ≤ r.year ∧ r.year ≤ hi := by
  simp [filterGdp, List.mem_filter, and_assoc]

/-- Membership in the filtered population frame (lines 126-130). -/
theorem mem_filterPop (df : List PopRow) (sel : List String) (lo hi : Int)
    (r : PopRow) :
    r ∈ filterPop df sel lo hi ↔
      r ∈ df ∧ r.country ∈ sel ∧ lo ≤ r.year ∧ r.year ≤ hi := by
  simp [filterPop, List.mem_filter, and_assoc]

/-- Membership in the inner join (line 209): exactly the pairings of a GDP
row and a population row sharing the (country, year) key. -/
theorem mem_mergeInner (G : List GdpRow) (P : List PopRow) (r : MergedRow) :
    r ∈ mergeInner G P ↔
      ∃ g ∈ G, ∃ p ∈ P, p.country = g.country ∧ p.year = g.year ∧
        r = mkMergedRow g p := by
  constructor
  · intro h
    rw [mergeInner, List.mem_flatMap] at h
    obtain ⟨g, hg, hmem⟩ := h
    rw [List.mem_map] at hmem
    obtain ⟨p, hp, rfl⟩ := hmem
    rw [List.mem_filter] at hp
    obtain ⟨hpP, hcond⟩ := hp
    simp only [Bool.and_eq_true, beq_iff_eq] at hcond
    exact ⟨g, hg, p, hpP, hcond.1, hcond.2, rfl⟩
  · rintro ⟨g, hg, p, hp, hc, hy, rfl⟩
    rw [mergeInner, List.mem_flatMap]
    refine ⟨g, hg, List.mem_map.mpr ⟨p, List.mem_filter.mpr ⟨hp, ?_⟩, rfl⟩⟩
    simp [hc, hy]

/-- Membership in the selectable country list (line 80). -/
theorem mem_allCountries (gdp : List GdpRow) (c : String) :
    c ∈ allCountries gdp ↔ ∃ g ∈ gdp, g.country = c := by
  rw [allCountries, (List.mergeSort_perm _ _).mem_iff, List.mem_dedup,
    List.mem_map]

/-- When `normGdpRow` keeps a row, it merely renames its fields. -/
theorem normGdpRow_eq_some (r : RawGdpRow) (g : GdpRow) :
    normGdpRow r = some g ↔
      r.pais = some g.country ∧ r.ano = some g.year ∧ r.unidade = g.unit ∧
        toNumericCoerce r.pib_dolar = some g.gdp_usd := by
  cases g
  rcases hp : r.pais with _ | c <;> rcases ha : r.ano with _ | y <;>
    rcases hv : toNumericCoerce r.pib_dolar with _ | v <;>
      simp [normGdpRow, hp, ha, hv, GdpRow.mk.injEq, eq_comm]

/-- When `normPopRow` keeps a row, it merely renames its fields. -/
theorem normPopRow_eq_some (r : RawPopRow) (p : PopRow) :
    normPopRow r = some p ↔
      r.pais = some p.country ∧ r.ano = some p.year ∧ r.unidade = p.unit ∧
        toNumericCoerce r.populacao = some p.population := by
  cases p
  rcases hp : r.pais with _ | c <;> rcases ha : r.ano with _ | y <;>
    rcases hv : toNumericCoerce r.populacao with _ | v <;>
      simp [normPopRow, hp, ha, hv, PopRow.mk.injEq, eq_comm]

/-! ## Claims -/

/-- C1: the combined dataset produced by the merge (line 209) is the inner
join on (country, year): a merged row exists exactly for the pairings of a
GDP row and a population row with equal key; hence a key occurs in the join
iff it occurs in both inputs, and joining an empty GDP frame yields the empty
frame. -/
theorem mergeInner_inner_join (G : List GdpRow) (P : List PopRow) :
    (∀ r : MergedRow, r ∈ mergeInner G P ↔
      ∃ g ∈ G, ∃ p ∈ P, p.country = g.country ∧ p.year = g.year ∧
        r = mkMergedRow g p) ∧
    (∀ c : String, ∀ y : Int,
      (∃ r ∈ mergeInner G P, r.country = c ∧ r.year = y) ↔
        ((∃ g ∈ G, g.country = c ∧ g.year = y) ∧
          (∃ p ∈ P, p.country = c ∧ p.year = y))) ∧
    mergeInner [] P = [] := by
  refine ⟨mem_mergeInner G P, ?_, rfl⟩
  intro c y
  constructor
  · rintro ⟨r, hr, hc, hy⟩
    obtain ⟨g, hg, p, hp, hpc, hpy, rfl⟩ := (mem_mergeInner G P r).mp hr
    exact ⟨⟨g, hg, hc, hy⟩, ⟨p, hp, hpc.trans hc, hpy.trans hy⟩⟩
  · rintro ⟨⟨g, hg, hgc, hgy⟩, ⟨p, hp, hpc, hpy⟩⟩
    refine ⟨mkMergedRow g p, (mem_mergeInner G P _).mpr
      ⟨g, hg, p, hp, hpc.trans hgc.symm, hpy.trans hgy.symm, rfl⟩, hgc, hgy⟩

/-- C3: every row of a filtered frame (lines 116-132) has its country in the
selected set and its year inside the inclusive range — and conversely every
such row of the input is kept, for both the GDP and the population frame. -/
theorem filtered_rows_within_selection (sel : List String) (lo hi : Int) :
    (∀ D : List GdpRow, ∀ r : GdpRow,
      r ∈ filterGdp D sel lo hi ↔
        r ∈ D ∧ r.country ∈ sel ∧ lo ≤ r.year ∧ r.year ≤ hi) ∧
    (∀ D : List PopRow, ∀ r : PopRow,
      r ∈ filterPop D sel lo hi ↔
        r ∈ D ∧ r.country ∈ sel ∧ lo ≤ r.year ∧ r.year ≤ hi) :=
  ⟨fun D r => mem_filterGdp D sel lo hi r, fun D r => mem_filterPop D sel lo hi r⟩

/-- C3 exercised at a concrete input: a row at each inclusive boundary of the
range is kept, and its country is among the selected ones. -/
theorem filtered_rows_within_selection_witness :
    ((⟨"Brazil", 2019, some "USD", 100⟩ : GdpRow) ∈
        filterGdp [⟨"Brazil", 2019, some "USD", 100⟩,
          ⟨"Brazil", 2021, some "USD", 120⟩,
          ⟨"Brazil", 2022, some "USD", 130⟩] ["Brazil", "India"] 2019 2021 ∧
      (⟨"Brazil", 2019, some "USD", 100⟩ : GdpRow).country ∈
        ["Brazil", "India"]) ∧
    ¬ (⟨"Brazil", 2022, some "USD", 130⟩ : GdpRow) ∈
        filterGdp [⟨"Brazil", 2019, some "USD", 100⟩,
          ⟨"Brazil", 2021, some "USD", 120⟩,
          ⟨"Brazil", 2022, some "USD", 130⟩] ["Brazil", "India"] 2019 2021 := by
  constructor
  · constructor
    · exact ((filtered_rows_within_selection ["Brazil", "India"] 2019 2021).1 _
        ⟨"Brazil", 2019, some "USD", 100⟩).mpr (by decide)
    · decide
  · intro h
    have h2 := ((filtered_rows_within_selection ["Brazil", "India"] 2019 2021).1 _
      ⟨"Brazil", 2022, some "USD", 130⟩).mp h
    exact absurd h2.2.2.2 (by decide)

/-- C2: the per-capita guard of lines 213-215 is global over the whole joined
frame: if any joined row has population 0, the gdp_per_capita column is
absent from every row of the combined frame, including rows whose population
is nonzero.  (The dtype arm of the guard holds by construction here, since
both value columns are rationals.) -/
theorem gdp_per_capita_global_guard (m : List MergedRow)
    (h : ∃ r ∈ m, r.population = 0) :
    ∀ r2 ∈ addPerCapita m, r2.gdp_per_capita = none := by
  intro r2 hr2
  obtain ⟨r, hr, hr0⟩ := h
  have hall : m.all (fun s => s.population != 0) = false := by
    rw [List.all_eq_false]
    exact ⟨r, hr, by simp [hr0]⟩
  rw [addPerCapita, hall, Bool.and_false] at hr2
  simp only [Bool.false_eq_true, if_false, List.mem_map] at hr2
  obtain ⟨s, hs, rfl⟩ := hr2
  rfl

/-- C2 exercised concretely: with one zero-population row in the join, even
the row with population 50 ends up without a per-capita value. -/
theorem gdp_per_capita_global_guard_witness :
    (⟨"Brazil", 2020, some "USD", 100, some "pessoas", 50, none⟩ :
      CombinedRow).gdp_per_capita = none :=
  gdp_per_capita_global_guard
    [⟨"India", 2020, some "USD", 7, some "pessoas", 0⟩,
     ⟨"Brazil", 2020, some "USD", 100, some "pessoas", 50⟩]
    ⟨⟨"India", 2020, some "USD", 7, some "pessoas", 0⟩, by decide, rfl⟩
    _ (by decide)

/-- C5: when the joined frame is non-empty and no population value is zero,
the gdp_per_capita column is added with value gdp_usd / population on every
row (lines 213-216); the division is performed only under this guard, so each
divisor is nonzero. -/
theorem gdp_per_capita_added_when_guard_holds (m : List MergedRow)
    (hne : m ≠ []) (hz : ∀ r ∈ m, r.population ≠ 0) :
    addPerCapita m = m.map fun r =>
      ⟨r.country, r.year, r.unit_gdp, r.gdp_usd, r.unit_pop, r.population,
        some (r.gdp_usd / r.population)⟩ := by
  have h1 : m.isEmpty = false := by simp [List.isEmpty_iff, hne]
  have h2 : m.all (fun r => r.population != 0) = true := by
    rw [List.all_eq_true]
    intro r hr
    simpa using hz r hr
  rw [addPerCapita, h1, h2]
  simp

/-- C5 exercised concretely: a single joined row with population 50 receives
gdp_per_capita = 100 / 50. -/
theorem gdp_per_capita_added_when_guard_holds_witness :
    addPerCapita [⟨"Brazil", 2020, some "USD", 100, some "pessoas", 50⟩] =
      [⟨"Brazil", 2020, some "USD", 100, some "pessoas", 50,
        some ((100 : Rat) / 50)⟩] :=
  gdp_per_capita_added_when_guard_holds _ (by decide) (by decide)

/-- C6: on a non-empty combined frame, latest_slice (lines 240-247) returns
the maximum year present, and its summary rows are exactly the combined rows
of that year projected onto the summary columns. -/
theorem latestSlice_max_year (m : List CombinedRow) (hne : m ≠ []) :
    ∃ y rows, latestSlice m = some (y, rows) ∧
      (∃ r ∈ m, r.year = y) ∧ (∀ r ∈ m, r.year ≤ y) ∧
      ∀ s : SummaryRow,
        s ∈ rows ↔ ∃ r ∈ m, r.year = y ∧ projectSummary r = s := by
  have hmap : m.map (·.year) ≠ [] := fun h => hne (List.map_eq_nil_iff.mp h)
  obtain ⟨y, hy⟩ := max?_of_ne_nil _ hmap
  obtain ⟨hymem, hub⟩ := max?_spec _ _ hy
  refine ⟨y, (m.filter fun r => r.year == y).map projectSummary, ?_, ?_, ?_, ?_⟩
  · simp only [latestSlice, hy]
  · simpa using hymem
  · intro r hr
    exact hub _ (List.mem_map_of_mem _ hr)
  · intro s
    simp only [List.mem_map, List.mem_filter, beq_iff_eq]
    constructor
    · rintro ⟨r, ⟨hr, hry⟩, rfl⟩
      exact ⟨r, hr, hry, rfl⟩
    · rintro ⟨r, hr, hry, rfl⟩
      exact ⟨r, ⟨hr, hry⟩, rfl⟩

/-- C6 exercised concretely on a frame with years 2019 and 2020. -/
theorem latestSlice_max_year_witness :
    ∃ y rows,
      latestSlice
        [⟨"Brazil", 2019, some "USD", 100, some "pessoas", 50, none⟩,
         ⟨"Brazil", 2020, some "USD", 110, some "pessoas", 55, none⟩] =
        some (y, rows) ∧
      (∃ r ∈ [(⟨"Brazil", 2019, some "USD", 100, some "pessoas", 50, none⟩ :
            CombinedRow),
          ⟨"Brazil", 2020, some "USD", 110, some "pessoas", 55, none⟩],
        r.year = y) ∧
      (∀ r ∈ [(⟨"Brazil", 2019, some "USD", 100, some "pessoas", 50, none⟩ :
            CombinedRow),
          ⟨"Brazil", 2020, some "USD", 110, some "pessoas", 55, none⟩],
        r.year ≤ y) ∧
      ∀ s : SummaryRow,
        s ∈ rows ↔
          ∃ r ∈ [(⟨"Brazil", 2019, some "USD", 100, some "pessoas", 50,
              none⟩ : CombinedRow),
            ⟨"Brazil", 2020, some "USD", 110, some "pessoas", 55, none⟩],
            r.year = y ∧ projectSummary r = s :=
  latestSlice_max_year _ (by decide)

/-- C7: after cleaning (lines 45-67), every retained GDP record originates in
a raw row whose country, year and (coercible) gdp_usd were all present, with
values unchanged and only columns renamed; conversely every complete raw row
is retained; and a row whose value fails numeric coercion is dropped.
Non-nullness of country, year and the value column holds by the type of the
cleaned rows.  The same holds for the population table. -/
theorem normalize_clean_invariants (rawG : List RawGdpRow)
    (rawP : List RawPopRow) :
    (∀ g ∈ normalizeGdp rawG, ∃ r ∈ rawG,
      r.pais = some g.country ∧ r.ano = some g.year ∧ r.unidade = g.unit ∧
        toNumericCoerce r.pib_dolar = some g.gdp_usd) ∧
    (∀ r ∈ rawG, ∀ c y v, r.pais = some c → r.ano = some y →
      toNumericCoerce r.pib_dolar = some v →
        (⟨c, y, r.unidade, v⟩ : GdpRow) ∈ normalizeGdp rawG) ∧
    (∀ r : RawGdpRow, toNumericCoerce r.pib_dolar = none →
      normGdpRow r = none) ∧
    (∀ p ∈ normalizePop rawP, ∃ r ∈ rawP,
      r.pais = some p.country ∧ r.ano = some p.year ∧ r.unidade = p.unit ∧
        toNumericCoerce r.populacao = some p.population) ∧
    (∀ r ∈ rawP, ∀ c y v, r.pais = some c → r.ano = some y →
      toNumericCoerce r.populacao = some v →
        (⟨c, y, r.unidade, v⟩ : PopRow) ∈ normalizePop rawP) ∧
    (∀ r : RawPopRow, toNumericCoerce r.populacao = none →
      normPopRow r = none) := by
  refine ⟨?_, ?_, ?_, ?_, ?_, ?_⟩
  · intro g hg
    rw [normalizeGdp, List.mem_filterMap] at hg
    obtain ⟨r, hr, hsome⟩ := hg
    exact ⟨r, hr, (normGdpRow_eq_some r g).mp hsome⟩
  · intro r hr c y v hc hy hv
    rw [normalizeGdp, List.mem_filterMap]
    exact ⟨r, hr, (normGdpRow_eq_some r _).mpr ⟨hc, hy, rfl, hv⟩⟩
  · intro r h
    rcases hp : r.pais with _ | c <;> rcases ha : r.ano with _ | y <;>
      simp [normGdpRow, hp, ha, h]
  · intro p hp
    rw [normalizePop, List.mem_filterMap] at hp
    obtain ⟨r, hr, hsome⟩ := hp
    exact ⟨r, hr, (normPopRow_eq_some r p).mp hsome⟩
  · intro r hr c y v hc hy hv
    rw [normalizePop, List.mem_filterMap]
    exact ⟨r, hr, (normPopRow_eq_some r _).mpr ⟨hc, hy, rfl, hv⟩⟩
  · intro r h
    rcases hp : r.pais with _ | c <;> rcases ha : r.ano with _ | y <;>
      simp [normPopRow, hp, ha, h]

/-- C7 exercised concretely: the complete raw row survives cleaning, renamed
but with its values intact, while its non-numeric companion is dropped. -/
theorem normalize_clean_invariants_witness :
    (⟨"Brazil", 2020, some "USD", 100⟩ : GdpRow) ∈
      normalizeGdp [⟨some "Brazil", some 2020, some "USD", RawVal.num 100⟩,
        ⟨some "India", some 2020, some "USD", RawVal.text "N/A"⟩] :=
  (normalize_clean_invariants
      [⟨some "Brazil", some 2020, some "USD", RawVal.num 100⟩,
        ⟨some "India", some 2020, some "USD", RawVal.text "N/A"⟩] []).2.1
    ⟨some "Brazil", some 2020, some "USD", RawVal.num 100⟩ (by decide)
    "Brazil" 2020 100 rfl rfl rfl

/-- C8: when the selection is empty the script substitutes the sentinel
`'_NO_COUNTRY_'` (lines 95-97); provided no dataset row carries the sentinel
as its country (it is not a real country), both filters return the empty
frame, and the `.isin` containment test is evaluated without failing. -/
theorem empty_selection_sentinel_empty (D : List GdpRow) (Dp : List PopRow)
    (lo hi : Int)
    (hG : ∀ r ∈ D, r.country ≠ "_NO_COUNTRY_")
    (hP : ∀ r ∈ Dp, r.country ≠ "_NO_COUNTRY_") :
    effectiveSelected [] = ["_NO_COUNTRY_"] ∧
    filterGdp D (effectiveSelected []) lo hi = [] ∧
    filterPop Dp (effectiveSelected []) lo hi = [] := by
  refine ⟨rfl, ?_, ?_⟩
  · rw [filterGdp, List.filter_eq_nil_iff]
    intro r hr
    simp [effectiveSelected, hG r hr]
  · rw [filterPop, List.filter_eq_nil_iff]
    intro r hr
    simp [effectiveSelected, hP r hr]

/-- C8 exercised concretely on singleton frames. -/
theorem empty_selection_sentinel_empty_witness :
    effectiveSelected [] = ["_NO_COUNTRY_"] ∧
    filterGdp [⟨"Brazil", 2020, some "USD", 100⟩]
      (effectiveSelected []) 2000 2023 = [] ∧
    filterPop [⟨"Brazil", 2020, some "pessoas", 50⟩]
      (effectiveSelected []) 2000 2023 = [] :=
  empty_selection_sentinel_empty _ _ 2000 2023 (by decide) (by decide)

/-- C9: the selectable country list is `sorted(df_gdp['country'].unique())`
(line 80), so for any non-empty selection drawn from it, every row of the
filtered population frame (and hence of anything combined from it) has a
country occurring in the cleaned GDP frame; a country present only in the
population table never appears. -/
theorem output_countries_from_gdp (gdp : List GdpRow) (pop : List PopRow)
    (sel : List String) (lo hi : Int)
    (hsub : ∀ c ∈ sel, c ∈ allCountries gdp) (hne : sel ≠ []) :
    ∀ r ∈ filterPop pop (effectiveSelected sel) lo hi,
      ∃ g ∈ gdp, g.country = r.country := by
  intro r hr
  have hsel : effectiveSelected sel = sel := by
    simp [effectiveSelected, List.isEmpty_iff, hne]
  rw [hsel] at hr
  have hmem := ((mem_filterPop pop sel lo hi r).mp hr).2.1
  exact (mem_allCountries gdp r.country).mp (hsub _ hmem)

/-- C9 exercised concretely: with the selection "Brazil" drawn from the GDP
country list, the filtered population row for Brazil traces back to a GDP
row with the same country. -/
theorem output_countries_from_gdp_witness :
    ∃ g ∈ [(⟨"Brazil", 2020, some "USD", 100⟩ : GdpRow)],
      g.country = (⟨"Brazil", 2020, some "pessoas", 50⟩ : PopRow).country :=
  output_countries_from_gdp [⟨"Brazil", 2020, some "USD", 100⟩]
    [⟨"Brazil", 2020, some "pessoas", 50⟩, ⟨"China", 2020, some "pessoas", 90⟩]
    ["Brazil"] 2000 2023
    (by
      intro c hc
      simp only [List.mem_singleton] at hc
      subst hc
      exact (mem_allCountries _ _).mpr ⟨⟨"Brazil", 2020, some "USD", 100⟩,
        List.mem_singleton_self _, rfl⟩)
    (by decide) _ (by decide)

/-- C10: the display section builds formatted copies (`.copy()` on lines 140,
151, 251) and applies the locale separator swap to the copies only: the
filtered GDP frame, the filtered population frame and the combined frame come
out of the rendering step unchanged, so the chart inputs and all downstream
values stay numeric and unformatted. -/
theorem formatting_leaves_frames_unchanged (gf : List GdpRow)
    (pf : List PopRow) (comb : List CombinedRow) :
    (renderTables gf pf comb).1 = (gf, pf, comb) ∧
    (renderTables gf pf comb).2.1 = formatGdpTable gf ∧
    (renderTables gf pf comb).2.2.1 = formatPopTable pf :=
  ⟨rfl, rfl, rfl⟩

/-- C4 (failing input): with a non-empty GDP table whose every pib_dolar
value is non-numeric and a non-empty population table, cleaning drops every
GDP row, `df_gdp['year'].min()` on the now-empty (still numeric) column is
NaN, and `int(NaN)` on line 103 raises ValueError — an exception escapes the
pipeline instead of degrading to an empty result plus a message. -/
theorem pipeline_raises_when_all_gdp_nonnumeric :
    runPipeline [⟨some "Brazil", some 2020, some "USD", RawVal.text "N/A"⟩]
      [⟨some "Brazil", some 2020, some "pessoas", RawVal.num 50⟩] [] =
      Except.error "ValueError: cannot convert float NaN to integer" := by
  rfl
